import Mathlib

/-!
Verification development for the universal-liquidity-pool-parser repository.

The core of the repository is `src/parsing.rs`: a pool-kind dispatch and
decode pipeline.  A `PoolType` selector (carrying an account address) is
dispatched by `get_info_struct` to one of three per-kind handler functions;
each handler fetches the raw account bytes through the `RpcClient` and then
runs the anchor-generated `try_deserialize` routine of that kind's account
schema, classifying every failure as either `PoolError::RpcError` (fetch
layer) or `PoolError::DeserializeError` (schema layer).

The `try_deserialize` routines themselves are generated by the
`declare_program!` macro from IDL files that are not part of `src/`; they
are modelled here from the specification (fixed 8-byte discriminator prefix
checked against a per-schema constant, then a positional little-endian field
layout that fails on truncation).  Everything else is translated directly
from `src/parsing.rs`.
-/

/-- An opaque fixed-width on-chain account address (`solana`'s `Pubkey`).
The core never inspects it, so it is modelled as an opaque identifier with
decidable equality. -/
structure Pubkey where
  id : Nat
deriving DecidableEq, Repr

/-- An opaque RPC-layer failure (`anchor_client`'s `ClientError`): the cause
carried by a fetch failure.  The core never inspects it, only wraps it. -/
structure ClientError where
  code : Nat
deriving DecidableEq, Repr

/-- The schema-layer failure cause (`anchor_lang`'s `Error` as produced by the
generated `try_deserialize` routines).  Modelled from the spec: the decoder
fails when the byte sequence is shorter than the discriminator, when the
discriminator does not match the expected constant, or when a field cannot be
read from the remaining bytes. -/
inductive AnchorError where
  | accountDiscriminatorNotFound : AnchorError
  | accountDiscriminatorMismatch : AnchorError
  | accountDidNotDeserialize : AnchorError
deriving DecidableEq, Repr

/-- The closed set of pool kinds, used to index schemas and to compare the
variant tags of `PoolType` and `AmmPool`. -/
inductive PoolKindTag where
  | pumpFun : PoolKindTag
  | raydiumCpmmAmm : PoolKindTag
  | raydiumCamm : PoolKindTag
deriving DecidableEq, Repr

/-- Little-endian value of a byte sequence (least significant byte first). -/
def leValue : List Nat → Nat
  | [] => 0
  | b :: bs => b + 256 * leValue bs

/-- Modelled from the spec: positional field parsing.  `decodeFields ws bytes`
reads one little-endian field of width `w` for each `w` in `ws`, consuming the
bytes left to right; it returns `none` as soon as fewer than `w` bytes remain
(truncation fails the whole decode, no partial result).  Trailing bytes after
the last field are ignored, as the generated deserializers read a prefix of
the account data. -/
def decodeFields : List Nat → List Nat → Option (List Nat)
  | [], _ => some []
  | w :: ws, bytes =>
    if bytes.length < w then none
    else
      match decodeFields ws (bytes.drop w) with
      | none => none
      | some vs => some (leValue (bytes.take w) :: vs)

/-- Modelled from the spec: the 8-byte discriminator constant of the PumpFun
`Pool` account schema (the real constant lives in the generated IDL code,
absent from `src/`; the spec requires a fixed per-schema constant). -/
def pumpFunDiscriminator : List Nat := [241, 154, 109, 4, 17, 177, 109, 188]

/-- Modelled from the spec: the 8-byte discriminator constant of the Raydium
CPMM `PoolState` account schema. -/
def raydiumCpmmDiscriminator : List Nat := [247, 237, 227, 245, 215, 195, 222, 70]

/-- Modelled from the spec: the 8-byte discriminator constant of the Raydium
CAMM `PoolState` account schema. -/
def raydiumCammDiscriminator : List Nat := [61, 201, 35, 8, 25, 55, 76, 10]

/-- Modelled from the spec: the field widths (in bytes) of the PumpFun `Pool`
schema body.  The exact field set is schema-specific and opaque to the core;
only the fixed positional layout matters to the claims. -/
def pumpFunFieldWidths : List Nat := [8, 8, 2, 1]

/-- Modelled from the spec: the field widths of the Raydium CPMM `PoolState`
schema body. -/
def raydiumCpmmFieldWidths : List Nat := [32, 8, 8, 2]

/-- Modelled from the spec: the field widths of the Raydium CAMM `PoolState`
schema body. -/
def raydiumCammFieldWidths : List Nat := [32, 32, 8, 8, 4, 1]

/-- Modelled from the spec: the anchor-generated `try_deserialize` routine for
a schema with discriminator constant `disc` and body field widths `widths`.
It (1) checks the data is at least as long as the 8-byte discriminator,
(2) compares the discriminator prefix against the expected constant —
mismatch is a schema error, never a silent fallback — and (3) parses the
remaining bytes positionally, failing on truncation. -/
def anchorTryDeserialize (disc widths data : List Nat) :
    Except AnchorError (List Nat) :=
  if data.length < 8 then .error .accountDiscriminatorNotFound
  else if data.take 8 ≠ disc then .error .accountDiscriminatorMismatch
  else
    match decodeFields widths (data.drop 8) with
    | none => .error .accountDidNotDeserialize
    | some vs => .ok vs

/-- The decoded PumpFun `Pool` account record (`pamm::accounts::Pool`).
Field values are opaque to the core; modelled as the parsed field list. -/
structure Pool where
  fields : List Nat
deriving DecidableEq, Repr

/-- The decoded Raydium CPMM `PoolState` account record
(`raydium_amm_cpmm_new::accounts::PoolState`). -/
structure PoolState where
  fields : List Nat
deriving DecidableEq, Repr

/-- The decoded Raydium CAMM `PoolState` account record
(`raydium_camm::accounts::PoolState`, imported as `RaydiumCammPoolState`). -/
structure RaydiumCammPoolState where
  fields : List Nat
deriving DecidableEq, Repr

/-- Modelled from the spec: `Pool::try_deserialize` (generated). -/
def Pool.try_deserialize (data : List Nat) : Except AnchorError Pool :=
  (anchorTryDeserialize pumpFunDiscriminator pumpFunFieldWidths data).map Pool.mk

/-- Modelled from the spec: `PoolState::try_deserialize` (generated). -/
def PoolState.try_deserialize (data : List Nat) : Except AnchorError PoolState :=
  (anchorTryDeserialize raydiumCpmmDiscriminator raydiumCpmmFieldWidths data).map PoolState.mk

/-- Modelled from the spec: `RaydiumCammPoolState::try_deserialize` (generated). -/
def RaydiumCammPoolState.try_deserialize (data : List Nat) :
    Except AnchorError RaydiumCammPoolState :=
  (anchorTryDeserialize raydiumCammDiscriminator raydiumCammFieldWidths data).map
    RaydiumCammPoolState.mk

/-- The discriminator constant of each kind's schema. -/
def discOf : PoolKindTag → List Nat
  | .pumpFun => pumpFunDiscriminator
  | .raydiumCpmmAmm => raydiumCpmmDiscriminator
  | .raydiumCamm => raydiumCammDiscriminator

/-- The body field widths of each kind's schema. -/
def widthsOf : PoolKindTag → List Nat
  | .pumpFun => pumpFunFieldWidths
  | .raydiumCpmmAmm => raydiumCpmmFieldWidths
  | .raydiumCamm => raydiumCammFieldWidths

/-- The account fetcher boundary: `RpcClient` exposes `get_account_data`,
returning the raw bytes of the account at an address, or a `ClientError`.
The spec treats it as an external collaborator supplying bytes on request,
so it is modelled as a response function. -/
structure RpcClient where
  get_account_data : Pubkey → Except ClientError (List Nat)

/-- `PoolType` from `src/parsing.rs`: the pool-kind selector.  Each variant
carries the `program_id` address of the target account. -/
inductive PoolType where
  | PumpFun (program_id : Pubkey) : PoolType
  | RaydiumCpmmAmm (program_id : Pubkey) : PoolType
  | RaydiumCamm (program_id : Pubkey) : PoolType
deriving DecidableEq, Repr

/-- `PoolType::program_id` from `src/parsing.rs`. -/
def PoolType.program_id : PoolType → Pubkey
  | .PumpFun program_id => program_id
  | .RaydiumCpmmAmm program_id => program_id
  | .RaydiumCamm program_id => program_id

/-- `PoolType::pool_name` from `src/parsing.rs`. -/
def PoolType.pool_name : PoolType → String
  | .PumpFun _ => "PumpFun AMM"
  | .RaydiumCpmmAmm _ => "Raydium AMM"
  | .RaydiumCamm _ => "Raydium AMM"

/-- The variant tag of a selector. -/
def PoolType.kindTag : PoolType → PoolKindTag
  | .PumpFun _ => .pumpFun
  | .RaydiumCpmmAmm _ => .raydiumCpmmAmm
  | .RaydiumCamm _ => .raydiumCamm

/-- `PoolError` from `src/parsing.rs`: either an RPC-layer failure wrapping
the underlying `ClientError`, or a schema-layer failure wrapping the
underlying anchor error. -/
inductive PoolError where
  | RpcError (e : ClientError) : PoolError
  | DeserializeError (e : AnchorError) : PoolError
deriving DecidableEq, Repr

/-- `handle_pump_amm_deserialize` from `src/parsing.rs`: fetch the account
bytes, short-circuiting a fetch failure into `RpcError`, then deserialize,
turning a decode failure into `DeserializeError`. -/
def handle_pump_amm_deserialize (program_id : Pubkey) (con : RpcClient) :
    Except PoolError Pool :=
  match con.get_account_data program_id with
  | .error e => .error (.RpcError e)
  | .ok data =>
    match Pool.try_deserialize data with
    | .ok pool => .ok pool
    | .error e => .error (.DeserializeError e)

/-- `handle_raydium_cpmm_amm_deserialize` from `src/parsing.rs`. -/
def handle_raydium_cpmm_amm_deserialize (program_id : Pubkey) (con : RpcClient) :
    Except PoolError PoolState :=
  match con.get_account_data program_id with
  | .error e => .error (.RpcError e)
  | .ok data =>
    match PoolState.try_deserialize data with
    | .ok pool_state => .ok pool_state
    | .error e => .error (.DeserializeError e)

/-- `handle_raydium_camm_deserialize` from `src/parsing.rs`. -/
def handle_raydium_camm_deserialize (program_id : Pubkey) (con : RpcClient) :
    Except PoolError RaydiumCammPoolState :=
  match con.get_account_data program_id with
  | .error e => .error (.RpcError e)
  | .ok data =>
    match RaydiumCammPoolState.try_deserialize data with
    | .ok pool_state => .ok pool_state
    | .error e => .error (.DeserializeError e)

/-- `AmmPool` from `src/parsing.rs`: the tagged union of decoded pools. -/
inductive AmmPool where
  | PumpFun (pool : Pool) : AmmPool
  | RaydiumCpmmAmm (pool_state : PoolState) : AmmPool
  | RaydiumCamm (pool_state : RaydiumCammPoolState) : AmmPool
deriving DecidableEq, Repr

/-- The variant tag of a decoded pool. -/
def AmmPool.kindTag : AmmPool → PoolKindTag
  | .PumpFun _ => .pumpFun
  | .RaydiumCpmmAmm _ => .raydiumCpmmAmm
  | .RaydiumCamm _ => .raydiumCamm

/-- The tuple name each variant passes to `f.debug_tuple(...)` in the
`Debug for AmmPool` implementation in `src/parsing.rs`. -/
def AmmPool.debug_tuple_name : AmmPool → String
  | .PumpFun _ => "PumpFun"
  | .RaydiumCpmmAmm _ => "Raydium"
  | .RaydiumCamm _ => "Raydium"

/-- The Debug output of `AmmPool`: `f.debug_tuple(name).field(x).finish()`
prints the tuple name followed by the field's own debug output in
parentheses. -/
def AmmPool.debug_fmt : AmmPool → String
  | .PumpFun pool =>
    "PumpFun" ++ "(" ++ toString pool.fields ++ ")"
  | .RaydiumCpmmAmm pool_state =>
    "Raydium" ++ "(" ++ toString pool_state.fields ++ ")"
  | .RaydiumCamm pool_state =>
    "Raydium" ++ "(" ++ toString pool_state.fields ++ ")"

/-- `get_info_struct` from `src/parsing.rs`: dispatch on the selector variant
to the matching handler and wrap the decoded record in the matching `AmmPool`
variant; the `?` operator propagates any handler error unchanged. -/
def get_info_struct (pool_type : PoolType) (rpc_client : RpcClient) :
    Except PoolError AmmPool :=
  match pool_type with
  | .PumpFun program_id =>
    (handle_pump_amm_deserialize program_id rpc_client).map AmmPool.PumpFun
  | .RaydiumCpmmAmm program_id =>
    (handle_raydium_cpmm_amm_deserialize program_id rpc_client).map AmmPool.RaydiumCpmmAmm
  | .RaydiumCamm program_id =>
    (handle_raydium_camm_deserialize program_id rpc_client).map AmmPool.RaydiumCamm

/-- An observable call to one of the two collaborators of a handler: a fetch
through `RpcClient::get_account_data`, or a run of one kind's
`try_deserialize` decoder. -/
inductive CallEvent where
  | fetch (address : Pubkey) : CallEvent
  | decode (kind : PoolKindTag) : CallEvent
deriving DecidableEq, Repr

/-- Whether an event is a fetch. -/
def CallEvent.isFetch : CallEvent → Bool
  | .fetch _ => true
  | .decode _ => false

/-- Whether an event is a decoder run. -/
def CallEvent.isDecode : CallEvent → Bool
  | .fetch _ => false
  | .decode _ => true

/-- Number of fetch calls in a trace. -/
def fetchCount (tr : List CallEvent) : Nat :=
  (tr.filter CallEvent.isFetch).length

/-- Number of decoder runs in a trace. -/
def decodeCount (tr : List CallEvent) : Nat :=
  (tr.filter CallEvent.isDecode).length

/-- `handle_pump_amm_deserialize` instrumented with its call trace: one event
is recorded at each collaborator call site of the source function, in source
order.  The first component is exactly the source function's result. -/
def handle_pump_amm_deserialize_traced (program_id : Pubkey) (con : RpcClient) :
    Except PoolError Pool × List CallEvent :=
  match con.get_account_data program_id with
  | .error e => (.error (.RpcError e), [.fetch program_id])
  | .ok data =>
    match Pool.try_deserialize data with
    | .ok pool => (.ok pool, [.fetch program_id, .decode .pumpFun])
    | .error e => (.error (.DeserializeError e), [.fetch program_id, .decode .pumpFun])

/-- `handle_raydium_cpmm_amm_deserialize` instrumented with its call trace. -/
def handle_raydium_cpmm_amm_deserialize_traced (program_id : Pubkey) (con : RpcClient) :
    Except PoolError PoolState × List CallEvent :=
  match con.get_account_data program_id with
  | .error e => (.error (.RpcError e), [.fetch program_id])
  | .ok data =>
    match PoolState.try_deserialize data with
    | .ok pool_state => (.ok pool_state, [.fetch program_id, .decode .raydiumCpmmAmm])
    | .error e => (.error (.DeserializeError e), [.fetch program_id, .decode .raydiumCpmmAmm])

/-- `handle_raydium_camm_deserialize` instrumented with its call trace. -/
def handle_raydium_camm_deserialize_traced (program_id : Pubkey) (con : RpcClient) :
    Except PoolError RaydiumCammPoolState × List CallEvent :=
  match con.get_account_data program_id with
  | .error e => (.error (.RpcError e), [.fetch program_id])
  | .ok data =>
    match RaydiumCammPoolState.try_deserialize data with
    | .ok pool_state => (.ok pool_state, [.fetch program_id, .decode .raydiumCamm])
    | .error e => (.error (.DeserializeError e), [.fetch program_id, .decode .raydiumCamm])

/-- `get_info_struct` instrumented with its call trace.  The dispatcher itself
calls no collaborator; its trace is the trace of the one handler it routes
to. -/
def get_info_struct_traced (pool_type : PoolType) (rpc_client : RpcClient) :
    Except PoolError AmmPool × List CallEvent :=
  match pool_type with
  | .PumpFun program_id =>
    let r := handle_pump_amm_deserialize_traced program_id rpc_client
    (r.1.map AmmPool.PumpFun, r.2)
  | .RaydiumCpmmAmm program_id =>
    let r := handle_raydium_cpmm_amm_deserialize_traced program_id rpc_client
    (r.1.map AmmPool.RaydiumCpmmAmm, r.2)
  | .RaydiumCamm program_id =>
    let r := handle_raydium_camm_deserialize_traced program_id rpc_client
    (r.1.map AmmPool.RaydiumCamm, r.2)

/-- The instrumentation is faithful: the traced pump handler computes the same
result as the plain translation of the source function. -/
theorem handle_pump_traced_fst (program_id : Pubkey) (con : RpcClient) :
    (handle_pump_amm_deserialize_traced program_id con).1 =
      handle_pump_amm_deserialize program_id con := by
  unfold handle_pump_amm_deserialize_traced handle_pump_amm_deserialize
  cases con.get_account_data program_id with
  | error e => rfl
  | ok data =>
    dsimp only
    cases Pool.try_deserialize data with
    | ok pool => rfl
    | error e => rfl

/-- The traced cpmm handler computes the same result as the source one. -/
theorem handle_cpmm_traced_fst (program_id : Pubkey) (con : RpcClient) :
    (handle_raydium_cpmm_amm_deserialize_traced program_id con).1 =
      handle_raydium_cpmm_amm_deserialize program_id con := by
  unfold handle_raydium_cpmm_amm_deserialize_traced handle_raydium_cpmm_amm_deserialize
  cases con.get_account_data program_id with
  | error e => rfl
  | ok data =>
    dsimp only
    cases PoolState.try_deserialize data with
    | ok pool_state => rfl
    | error e => rfl

/-- The traced camm handler computes the same result as the source one. -/
theorem handle_camm_traced_fst (program_id : Pubkey) (con : RpcClient) :
    (handle_raydium_camm_deserialize_traced program_id con).1 =
      handle_raydium_camm_deserialize program_id con := by
  unfold handle_raydium_camm_deserialize_traced handle_raydium_camm_deserialize
  cases con.get_account_data program_id with
  | error e => rfl
  | ok data =>
    dsimp only
    cases RaydiumCammPoolState.try_deserialize data with
    | ok pool_state => rfl
    | error e => rfl

/-- The traced dispatcher computes the same result as `get_info_struct`. -/
theorem get_info_struct_traced_fst (pool_type : PoolType) (rpc_client : RpcClient) :
    (get_info_struct_traced pool_type rpc_client).1 =
      get_info_struct pool_type rpc_client := by
  cases pool_type with
  | PumpFun program_id =>
    simp only [get_info_struct_traced, get_info_struct, handle_pump_traced_fst]
  | RaydiumCpmmAmm program_id =>
    simp only [get_info_struct_traced, get_info_struct, handle_cpmm_traced_fst]
  | RaydiumCamm program_id =>
    simp only [get_info_struct_traced, get_info_struct, handle_camm_traced_fst]

/-- Positional parsing fails whenever fewer bytes remain than the total width
of the required fields: no partial decode. -/
theorem decodeFields_eq_none (ws : List Nat) :
    ∀ bytes : List Nat, bytes.length < ws.sum → decodeFields ws bytes = none := by
  induction ws with
  | nil =>
    intro bytes h
    simp at h
  | cons w ws ih =>
    intro bytes h
    unfold decodeFields
    by_cases hw : bytes.length < w
    · rw [if_pos hw]
    · rw [if_neg hw]
      have hlt : (bytes.drop w).length < ws.sum := by
        rw [List.length_drop]
        rw [List.sum_cons] at h
        omega
      rw [ih _ hlt]

/-- A successful positional parse implies the byte sequence covered every
required field. -/
theorem decodeFields_some_length (ws bytes vs : List Nat)
    (h : decodeFields ws bytes = some vs) : ws.sum ≤ bytes.length := by
  by_contra hc
  push_neg at hc
  rw [decodeFields_eq_none ws bytes hc] at h
  cases h

/-- What a successful run of the modelled `try_deserialize` routine implies:
the data covers the discriminator, the discriminator matches, and the body
parse succeeded. -/
theorem anchorTryDeserialize_ok_facts (disc widths data vs : List Nat)
    (h : anchorTryDeserialize disc widths data = .ok vs) :
    8 ≤ data.length ∧ data.take 8 = disc
      ∧ decodeFields widths (data.drop 8) = some vs := by
  unfold anchorTryDeserialize at h
  by_cases h8 : data.length < 8
  · rw [if_pos h8] at h
    cases h
  · rw [if_neg h8] at h
    by_cases hd : data.take 8 = disc
    · rw [if_neg (by simp [hd])] at h
      refine ⟨by omega, hd, ?_⟩
      cases hdec : decodeFields widths (data.drop 8) with
      | none => rw [hdec] at h; cases h
      | some vs2 =>
        rw [hdec] at h
        simp at h
        rw [h]
    · rw [if_pos hd] at h
      cases h

/-- Truncating the input of a successful decode anywhere before the end of
the last required field makes the modelled `try_deserialize` fail. -/
theorem anchorTryDeserialize_truncate (disc widths data vs : List Nat) (n : Nat)
    (hok : anchorTryDeserialize disc widths data = .ok vs)
    (hn : n < 8 + widths.sum) :
    ∃ e, anchorTryDeserialize disc widths (data.take n) = .error e := by
  obtain ⟨h8, hdisc, hdec⟩ := anchorTryDeserialize_ok_facts disc widths data vs hok
  have hcov : widths.sum ≤ (data.drop 8).length := decodeFields_some_length _ _ _ hdec
  rw [List.length_drop] at hcov
  by_cases hsmall : n < 8
  · refine ⟨.accountDiscriminatorNotFound, ?_⟩
    unfold anchorTryDeserialize
    rw [if_pos (by rw [List.length_take]; omega)]
  · push_neg at hsmall
    refine ⟨.accountDidNotDeserialize, ?_⟩
    unfold anchorTryDeserialize
    have htake : (data.take n).take 8 = disc := by
      rw [List.take_take, min_eq_left hsmall, hdisc]
    rw [if_neg (by rw [List.length_take]; omega)]
    rw [if_neg (by simp [htake])]
    rw [decodeFields_eq_none]
    rw [List.length_drop, List.length_take]
    omega

/-- Feeding the modelled `try_deserialize` bytes whose 8-byte prefix is a
different constant than its own discriminator yields the discriminator
mismatch error. -/
theorem anchorTryDeserialize_mismatch (disc disc2 rest widths : List Nat)
    (h8 : disc2.length = 8) (hne : disc2 ≠ disc) :
    anchorTryDeserialize disc widths (disc2 ++ rest)
      = .error .accountDiscriminatorMismatch := by
  unfold anchorTryDeserialize
  have hlen : ¬ ((disc2 ++ rest).length < 8) := by
    rw [List.length_append, h8]
    omega
  have htake : (disc2 ++ rest).take 8 = disc2 := List.take_left' h8
  rw [if_neg hlen, if_pos (by rw [htake]; exact hne)]

/-- `Except.map` never turns a failure into a success or changes the cause. -/
theorem except_map_eq_error {α β γ : Type} (f : α → β) (x : Except γ α) (e : γ) :
    x.map f = .error e ↔ x = .error e := by
  cases x <;> simp [Except.map]

/-- `Except.map f x` succeeds exactly when `x` does, producing the mapped
value. -/
theorem except_map_eq_ok {α β γ : Type} (f : α → β) (x : Except γ α) (b : β) :
    x.map f = .ok b ↔ ∃ a, x = .ok a ∧ b = f a := by
  cases x with
  | error e => simp [Except.map]
  | ok a => simp [Except.map, eq_comm]

/-- A concrete valid PumpFun fixture: the PumpFun discriminator followed by
exactly enough body bytes for every field. -/
def pumpFixture : List Nat := pumpFunDiscriminator ++ List.replicate 19 0

/-- A fetcher that answers every address with the PumpFun fixture bytes. -/
def fixtureClient : RpcClient := ⟨fun _ => Except.ok pumpFixture⟩

/-- A fetcher whose every fetch fails with a fixed RPC-layer cause. -/
def failingClient : RpcClient := ⟨fun _ => Except.error ⟨7⟩⟩

/-- C1: whenever `get_info_struct` returns successfully, the variant tag of
the returned `AmmPool` matches the variant of the input `PoolType`: PumpFun
selectors yield `AmmPool.PumpFun`, RaydiumCpmmAmm selectors yield
`AmmPool.RaydiumCpmmAmm`, RaydiumCamm selectors yield `AmmPool.RaydiumCamm`. -/
theorem get_info_struct_variant_tag_matches (pool_type : PoolType)
    (rpc_client : RpcClient) (p : AmmPool)
    (h : get_info_struct pool_type rpc_client = .ok p) :
    p.kindTag = pool_type.kindTag := by
  cases pool_type with
  | PumpFun program_id =>
    simp only [get_info_struct] at h
    rw [except_map_eq_ok] at h
    obtain ⟨q, _, hp⟩ := h
    rw [hp]
    rfl
  | RaydiumCpmmAmm program_id =>
    simp only [get_info_struct] at h
    rw [except_map_eq_ok] at h
    obtain ⟨q, _, hp⟩ := h
    rw [hp]
    rfl
  | RaydiumCamm program_id =>
    simp only [get_info_struct] at h
    rw [except_map_eq_ok] at h
    obtain ⟨q, _, hp⟩ := h
    rw [hp]
    rfl

/-- C1 witness: a concrete successful decode of the PumpFun fixture has the
PumpFun variant tag. -/
theorem get_info_struct_variant_tag_matches_witness :
    (AmmPool.PumpFun ⟨[0, 0, 0, 0]⟩).kindTag = (PoolType.PumpFun ⟨1⟩).kindTag :=
  get_info_struct_variant_tag_matches (PoolType.PumpFun ⟨1⟩) fixtureClient
    (AmmPool.PumpFun ⟨[0, 0, 0, 0]⟩) rfl

/-- C6: `get_info_struct` is a deterministic function of the selector and the
bytes returned for the selector's address — two fetchers answering the
selector's address identically yield structurally equal results. -/
theorem get_info_struct_deterministic (pool_type : PoolType) (c₁ c₂ : RpcClient)
    (h : c₁.get_account_data pool_type.program_id
          = c₂.get_account_data pool_type.program_id) :
    get_info_struct pool_type c₁ = get_info_struct pool_type c₂ := by
  cases pool_type with
  | PumpFun program_id =>
    simp only [PoolType.program_id] at h
    simp only [get_info_struct, handle_pump_amm_deserialize, h]
  | RaydiumCpmmAmm program_id =>
    simp only [PoolType.program_id] at h
    simp only [get_info_struct, handle_raydium_cpmm_amm_deserialize, h]
  | RaydiumCamm program_id =>
    simp only [PoolType.program_id] at h
    simp only [get_info_struct, handle_raydium_camm_deserialize, h]

/-- C6 witness: two concrete distinct fetchers that agree on the queried
address give equal results. -/
theorem get_info_struct_deterministic_witness :
    get_info_struct (PoolType.PumpFun ⟨1⟩) fixtureClient
      = get_info_struct (PoolType.PumpFun ⟨1⟩)
          ⟨fun a => if a.id = 1 then Except.ok pumpFixture else Except.error ⟨9⟩⟩ :=
  get_info_struct_deterministic (PoolType.PumpFun ⟨1⟩) fixtureClient
    ⟨fun a => if a.id = 1 then Except.ok pumpFixture else Except.error ⟨9⟩⟩ rfl

/-- C8: the core is total — the dispatch match covers every `PoolType`
variant, so for every selector and every fetcher behaviour `get_info_struct`
returns a value (`Except.ok` or `Except.error`) and never aborts, and the
`pool_name` accessor is likewise defined on every variant. -/
theorem get_info_struct_total (pool_type : PoolType) (rpc_client : RpcClient) :
    ((∃ p, get_info_struct pool_type rpc_client = .ok p)
      ∨ (∃ e, get_info_struct pool_type rpc_client = .error e))
    ∧ (pool_type.pool_name = "PumpFun AMM" ∨ pool_type.pool_name = "Raydium AMM") := by
  constructor
  · cases hres : get_info_struct pool_type rpc_client with
    | ok p => exact Or.inl ⟨p, rfl⟩
    | error e => exact Or.inr ⟨e, rfl⟩
  · cases pool_type with
    | PumpFun program_id => exact Or.inl rfl
    | RaydiumCpmmAmm program_id => exact Or.inr rfl
    | RaydiumCamm program_id => exact Or.inr rfl

/-- C9: the two distinct Raydium selector variants both display as
"Raydium AMM" through `pool_name`, while the PumpFun variant displays as
"PumpFun AMM", and the internal variant tags of the two Raydium kinds remain
distinct. -/
theorem pool_name_raydium_collision (a b c : Pubkey) :
    (PoolType.RaydiumCpmmAmm a).pool_name = "Raydium AMM"
    ∧ (PoolType.RaydiumCamm b).pool_name = "Raydium AMM"
    ∧ (PoolType.PumpFun c).pool_name = "PumpFun AMM"
    ∧ (PoolType.RaydiumCpmmAmm a).kindTag ≠ (PoolType.RaydiumCamm b).kindTag :=
  ⟨rfl, rfl, rfl, fun h => by cases h⟩

/-- C10: the Debug implementation of `AmmPool` passes the tuple name
"Raydium" for both `RaydiumCpmmAmm` and `RaydiumCamm` (and "PumpFun" for
`PumpFun`), so the two Raydium variants print the same tag even though their
variant tags differ. -/
theorem amm_pool_debug_raydium_collision (ps : PoolState)
    (cs : RaydiumCammPoolState) (pp : Pool) :
    (AmmPool.RaydiumCpmmAmm ps).debug_tuple_name = "Raydium"
    ∧ (AmmPool.RaydiumCamm cs).debug_tuple_name = "Raydium"
    ∧ (AmmPool.PumpFun pp).debug_tuple_name = "PumpFun"
    ∧ (AmmPool.RaydiumCpmmAmm ps).debug_fmt
        = "Raydium" ++ "(" ++ toString ps.fields ++ ")"
    ∧ (AmmPool.RaydiumCamm cs).debug_fmt
        = "Raydium" ++ "(" ++ toString cs.fields ++ ")"
    ∧ (AmmPool.RaydiumCpmmAmm ps).kindTag ≠ (AmmPool.RaydiumCamm cs).kindTag :=
  ⟨rfl, rfl, rfl, rfl, rfl, fun h => by cases h⟩

/-- C2: if the account fetch fails, `get_info_struct` returns the fetch
failure wrapped as `PoolError.RpcError` and runs the schema decoder zero
times — the handler short-circuits before any decode attempt. -/
theorem get_info_struct_fetch_failure (pool_type : PoolType)
    (rpc_client : RpcClient) (e : ClientError)
    (h : rpc_client.get_account_data pool_type.program_id = .error e) :
    get_info_struct pool_type rpc_client = .error (.RpcError e)
    ∧ decodeCount (get_info_struct_traced pool_type rpc_client).2 = 0 := by
  cases pool_type with
  | PumpFun program_id =>
    simp only [PoolType.program_id] at h
    refine ⟨?_, ?_⟩
    · simp only [get_info_struct, handle_pump_amm_deserialize, h, Except.map]
    · simp only [get_info_struct_traced, handle_pump_amm_deserialize_traced, h]
      rfl
  | RaydiumCpmmAmm program_id =>
    simp only [PoolType.program_id] at h
    refine ⟨?_, ?_⟩
    · simp only [get_info_struct, handle_raydium_cpmm_amm_deserialize, h, Except.map]
    · simp only [get_info_struct_traced, handle_raydium_cpmm_amm_deserialize_traced, h]
      rfl
  | RaydiumCamm program_id =>
    simp only [PoolType.program_id] at h
    refine ⟨?_, ?_⟩
    · simp only [get_info_struct, handle_raydium_camm_deserialize, h, Except.map]
    · simp only [get_info_struct_traced, handle_raydium_camm_deserialize_traced, h]
      rfl

/-- C2 witness: a concrete failing fetch short-circuits with `RpcError` and a
decoder-free trace. -/
theorem get_info_struct_fetch_failure_witness :
    get_info_struct (PoolType.RaydiumCpmmAmm ⟨2⟩) failingClient
        = .error (.RpcError ⟨7⟩)
    ∧ decodeCount
        (get_info_struct_traced (PoolType.RaydiumCpmmAmm ⟨2⟩) failingClient).2 = 0 :=
  get_info_struct_fetch_failure (PoolType.RaydiumCpmmAmm ⟨2⟩) failingClient ⟨7⟩ rfl

/-- C7: one call to `get_info_struct` performs exactly one fetch through
`get_account_data` — never zero, never more than one — whatever the selector
and whatever the fetch and decode outcomes. -/
theorem get_info_struct_fetches_exactly_once (pool_type : PoolType)
    (rpc_client : RpcClient) :
    fetchCount (get_info_struct_traced pool_type rpc_client).2 = 1 := by
  cases pool_type with
  | PumpFun program_id =>
    show fetchCount (handle_pump_amm_deserialize_traced program_id rpc_client).2 = 1
    unfold handle_pump_amm_deserialize_traced
    cases rpc_client.get_account_data program_id with
    | error e => rfl
    | ok data =>
      dsimp only
      cases Pool.try_deserialize data with
      | ok pool => rfl
      | error e => rfl
  | RaydiumCpmmAmm program_id =>
    show fetchCount (handle_raydium_cpmm_amm_deserialize_traced program_id rpc_client).2 = 1
    unfold handle_raydium_cpmm_amm_deserialize_traced
    cases rpc_client.get_account_data program_id with
    | error e => rfl
    | ok data =>
      dsimp only
      cases PoolState.try_deserialize data with
      | ok pool_state => rfl
      | error e => rfl
  | RaydiumCamm program_id =>
    show fetchCount (handle_raydium_camm_deserialize_traced program_id rpc_client).2 = 1
    unfold handle_raydium_camm_deserialize_traced
    cases rpc_client.get_account_data program_id with
    | error e => rfl
    | ok data =>
      dsimp only
      cases RaydiumCammPoolState.try_deserialize data with
      | ok pool_state => rfl
      | error e => rfl

/-- C3: every failure of `get_info_struct` is exactly one of two mutually
exclusive kinds — `PoolError.RpcError` wrapping the fetch cause unchanged, or
`PoolError.DeserializeError` wrapping the decode cause unchanged — and the
two kinds are distinguishable by their variant tag. -/
theorem get_info_struct_error_classification (pool_type : PoolType)
    (rpc_client : RpcClient) (err : PoolError)
    (h : get_info_struct pool_type rpc_client = .error err) :
    ((∃ ce, rpc_client.get_account_data pool_type.program_id = .error ce
        ∧ err = .RpcError ce)
      ∨ (∃ data ae, rpc_client.get_account_data pool_type.program_id = .ok data
        ∧ anchorTryDeserialize (discOf pool_type.kindTag)
            (widthsOf pool_type.kindTag) data = .error ae
        ∧ err = .DeserializeError ae))
    ∧ ∀ ce ae, PoolError.RpcError ce ≠ PoolError.DeserializeError ae := by
  refine ⟨?_, fun ce ae hne => by cases hne⟩
  cases pool_type with
  | PumpFun program_id =>
    simp only [get_info_struct, except_map_eq_error] at h
    unfold handle_pump_amm_deserialize at h
    cases hf : rpc_client.get_account_data program_id with
    | error ce =>
      simp only [hf, Except.error.injEq] at h
      exact Or.inl ⟨ce, hf, h.symm⟩
    | ok data =>
      simp only [hf] at h
      cases hd : Pool.try_deserialize data with
      | ok pool =>
        simp only [hd] at h
        exact Except.noConfusion h
      | error ae =>
        simp only [hd, Except.error.injEq] at h
        unfold Pool.try_deserialize at hd
        rw [except_map_eq_error] at hd
        exact Or.inr ⟨data, ae, hf, hd, h.symm⟩
  | RaydiumCpmmAmm program_id =>
    simp only [get_info_struct, except_map_eq_error] at h
    unfold handle_raydium_cpmm_amm_deserialize at h
    cases hf : rpc_client.get_account_data program_id with
    | error ce =>
      simp only [hf, Except.error.injEq] at h
      exact Or.inl ⟨ce, hf, h.symm⟩
    | ok data =>
      simp only [hf] at h
      cases hd : PoolState.try_deserialize data with
      | ok pool_state =>
        simp only [hd] at h
        exact Except.noConfusion h
      | error ae =>
        simp only [hd, Except.error.injEq] at h
        unfold PoolState.try_deserialize at hd
        rw [except_map_eq_error] at hd
        exact Or.inr ⟨data, ae, hf, hd, h.symm⟩
  | RaydiumCamm program_id =>
    simp only [get_info_struct, except_map_eq_error] at h
    unfold handle_raydium_camm_deserialize at h
    cases hf : rpc_client.get_account_data program_id with
    | error ce =>
      simp only [hf, Except.error.injEq] at h
      exact Or.inl ⟨ce, hf, h.symm⟩
    | ok data =>
      simp only [hf] at h
      cases hd : RaydiumCammPoolState.try_deserialize data with
      | ok pool_state =>
        simp only [hd] at h
        exact Except.noConfusion h
      | error ae =>
        simp only [hd, Except.error.injEq] at h
        unfold RaydiumCammPoolState.try_deserialize at hd
        rw [except_map_eq_error] at hd
        exact Or.inr ⟨data, ae, hf, hd, h.symm⟩

/-- C3 witness: a concrete failing fetch is classified as `RpcError` wrapping
the cause unchanged. -/
theorem get_info_struct_error_classification_witness :
    ((∃ ce, failingClient.get_account_data (PoolType.PumpFun ⟨1⟩).program_id
          = .error ce
        ∧ (PoolError.RpcError ⟨7⟩ : PoolError) = .RpcError ce)
      ∨ (∃ data ae,
          failingClient.get_account_data (PoolType.PumpFun ⟨1⟩).program_id = .ok data
        ∧ anchorTryDeserialize (discOf (PoolType.PumpFun ⟨1⟩).kindTag)
            (widthsOf (PoolType.PumpFun ⟨1⟩).kindTag) data = .error ae
        ∧ (PoolError.RpcError ⟨7⟩ : PoolError) = .DeserializeError ae))
    ∧ ∀ ce ae, PoolError.RpcError ce ≠ PoolError.DeserializeError ae :=
  get_info_struct_error_classification (PoolType.PumpFun ⟨1⟩) failingClient
    (PoolError.RpcError ⟨7⟩) rfl

/-- C4: fetching bytes whose leading 8-byte prefix is the discriminator
constant of a different kind than the selector's makes `get_info_struct`
fail with a schema error (`PoolError.DeserializeError`), never decode
successfully. -/
theorem get_info_struct_wrong_discriminator (pool_type : PoolType)
    (k : PoolKindTag) (rest : List Nat) (rpc_client : RpcClient)
    (hk : k ≠ pool_type.kindTag)
    (hf : rpc_client.get_account_data pool_type.program_id
            = .ok (discOf k ++ rest)) :
    get_info_struct pool_type rpc_client
      = .error (.DeserializeError .accountDiscriminatorMismatch) := by
  have hlen : (discOf k).length = 8 := by cases k <;> rfl
  cases pool_type with
  | PumpFun program_id =>
    have hne : discOf k ≠ pumpFunDiscriminator := by
      cases k with
      | pumpFun => exact absurd rfl hk
      | raydiumCpmmAmm => decide
      | raydiumCamm => decide
    have hdec := anchorTryDeserialize_mismatch pumpFunDiscriminator (discOf k)
      rest pumpFunFieldWidths hlen hne
    simp only [PoolType.program_id] at hf
    simp only [get_info_struct, handle_pump_amm_deserialize, hf,
      Pool.try_deserialize, hdec, Except.map]
  | RaydiumCpmmAmm program_id =>
    have hne : discOf k ≠ raydiumCpmmDiscriminator := by
      cases k with
      | pumpFun => decide
      | raydiumCpmmAmm => exact absurd rfl hk
      | raydiumCamm => decide
    have hdec := anchorTryDeserialize_mismatch raydiumCpmmDiscriminator (discOf k)
      rest raydiumCpmmFieldWidths hlen hne
    simp only [PoolType.program_id] at hf
    simp only [get_info_struct, handle_raydium_cpmm_amm_deserialize, hf,
      PoolState.try_deserialize, hdec, Except.map]
  | RaydiumCamm program_id =>
    have hne : discOf k ≠ raydiumCammDiscriminator := by
      cases k with
      | pumpFun => decide
      | raydiumCpmmAmm => decide
      | raydiumCamm => exact absurd rfl hk
    have hdec := anchorTryDeserialize_mismatch raydiumCammDiscriminator (discOf k)
      rest raydiumCammFieldWidths hlen hne
    simp only [PoolType.program_id] at hf
    simp only [get_info_struct, handle_raydium_camm_deserialize, hf,
      RaydiumCammPoolState.try_deserialize, hdec, Except.map]

/-- C4 witness: bytes carrying the Raydium CPMM discriminator decoded as a
PumpFun pool yield the discriminator mismatch schema error. -/
theorem get_info_struct_wrong_discriminator_witness :
    get_info_struct (PoolType.PumpFun ⟨1⟩)
        ⟨fun _ => Except.ok (discOf .raydiumCpmmAmm ++ List.replicate 19 0)⟩
      = .error (.DeserializeError .accountDiscriminatorMismatch) :=
  get_info_struct_wrong_discriminator (PoolType.PumpFun ⟨1⟩) .raydiumCpmmAmm
    (List.replicate 19 0)
    ⟨fun _ => Except.ok (discOf .raydiumCpmmAmm ++ List.replicate 19 0)⟩
    (by decide) rfl

/-- C5: truncating the bytes of a successfully decoding fixture at any offset
before the end of the last required field makes `get_info_struct` fail with a
schema error (`PoolError.DeserializeError`), never return a
partially-populated pool. -/
theorem get_info_struct_truncation (pool_type : PoolType) (c₁ c₂ : RpcClient)
    (data : List Nat) (p : AmmPool) (n : Nat)
    (hf : c₁.get_account_data pool_type.program_id = .ok data)
    (hok : get_info_struct pool_type c₁ = .ok p)
    (hn : n < 8 + (widthsOf pool_type.kindTag).sum)
    (hf2 : c₂.get_account_data pool_type.program_id = .ok (data.take n)) :
    ∃ e, get_info_struct pool_type c₂ = .error (.DeserializeError e) := by
  cases pool_type with
  | PumpFun program_id =>
    simp only [PoolType.program_id] at hf hf2
    simp only [PoolType.kindTag, widthsOf] at hn
    simp only [get_info_struct, except_map_eq_ok] at hok
    obtain ⟨q, hq, _⟩ := hok
    unfold handle_pump_amm_deserialize at hq
    simp only [hf] at hq
    cases hd : Pool.try_deserialize data with
    | error ae => simp only [hd] at hq; exact Except.noConfusion hq
    | ok pool =>
      unfold Pool.try_deserialize at hd
      rw [except_map_eq_ok] at hd
      obtain ⟨vs, hvs, _⟩ := hd
      obtain ⟨e, he⟩ := anchorTryDeserialize_truncate pumpFunDiscriminator
        pumpFunFieldWidths data vs n hvs hn
      refine ⟨e, ?_⟩
      simp only [get_info_struct, handle_pump_amm_deserialize, hf2,
        Pool.try_deserialize, he, Except.map]
  | RaydiumCpmmAmm program_id =>
    simp only [PoolType.program_id] at hf hf2
    simp only [PoolType.kindTag, widthsOf] at hn
    simp only [get_info_struct, except_map_eq_ok] at hok
    obtain ⟨q, hq, _⟩ := hok
    unfold handle_raydium_cpmm_amm_deserialize at hq
    simp only [hf] at hq
    cases hd : PoolState.try_deserialize data with
    | error ae => simp only [hd] at hq; exact Except.noConfusion hq
    | ok pool_state =>
      unfold PoolState.try_deserialize at hd
      rw [except_map_eq_ok] at hd
      obtain ⟨vs, hvs, _⟩ := hd
      obtain ⟨e, he⟩ := anchorTryDeserialize_truncate raydiumCpmmDiscriminator
        raydiumCpmmFieldWidths data vs n hvs hn
      refine ⟨e, ?_⟩
      simp only [get_info_struct, handle_raydium_cpmm_amm_deserialize, hf2,
        PoolState.try_deserialize, he, Except.map]
  | RaydiumCamm program_id =>
    simp only [PoolType.program_id] at hf hf2
    simp only [PoolType.kindTag, widthsOf] at hn
    simp only [get_info_struct, except_map_eq_ok] at hok
    obtain ⟨q, hq, _⟩ := hok
    unfold handle_raydium_camm_deserialize at hq
    simp only [hf] at hq
    cases hd : RaydiumCammPoolState.try_deserialize data with
    | error ae => simp only [hd] at hq; exact Except.noConfusion hq
    | ok pool_state =>
      unfold RaydiumCammPoolState.try_deserialize at hd
      rw [except_map_eq_ok] at hd
      obtain ⟨vs, hvs, _⟩ := hd
      obtain ⟨e, he⟩ := anchorTryDeserialize_truncate raydiumCammDiscriminator
        raydiumCammFieldWidths data vs n hvs hn
      refine ⟨e, ?_⟩
      simp only [get_info_struct, handle_raydium_camm_deserialize, hf2,
        RaydiumCammPoolState.try_deserialize, he, Except.map]

/-- C5 witness: truncating the PumpFun fixture to 10 bytes makes the decode
fail with a schema error. -/
theorem get_info_struct_truncation_witness :
    ∃ e, get_info_struct (PoolType.PumpFun ⟨1⟩)
        ⟨fun _ => Except.ok (pumpFixture.take 10)⟩
      = .error (.DeserializeError e) :=
  get_info_struct_truncation (PoolType.PumpFun ⟨1⟩) fixtureClient
    ⟨fun _ => Except.ok (pumpFixture.take 10)⟩ pumpFixture
    (AmmPool.PumpFun ⟨[0, 0, 0, 0]⟩) 10 rfl rfl (by decide) rfl
